import Mathlib

/-!
Shallow embedding of the identity-linking core of the `auth` service.

The two Go sources embedded here are:
 * `src/internal/api/link-identity-token.go`, handler `LinkIdentityWithIDToken`
   (called the *main* version below), and
 * `src/unnamed/part_000`, a second definition of `LinkIdentityWithIDToken`
   (called the *alt* version below).

External collaborators (request decoding, provider resolution, token
verification, the storage primitives) are not in the source tree; they are
modelled as an oracle environment `Env`, and the storage/model helpers that
the spec fixes (`db.Transaction`, `models.NewIdentity`,
`User.UpdateUserMetaData`, `User.UpdateAppMetaDataProviders`,
`models.NewAuditLogEntry`) are modelled from the spec, each marked in its
doc comment.
-/

namespace Auth

/-- Request parameters, from `IdTokenGrantParams` / `LinkIdentityWithIDTokenParams`
(both versions carry the same six fields `id_token`, `provider`,
`access_token`, `nonce`, `client_id`, `issuer`). -/
structure IdTokenGrantParams where
  IdToken : String
  Provider : String
  AccessToken : String
  Nonce : String
  ClientID : String
  Issuer : String
deriving Repr, DecidableEq

/-- The authenticated user: id, metadata map (assoc list), provider list. -/
structure User where
  ID : Nat
  UserMetaData : List (String × String)
  Providers : List String
deriving Repr, DecidableEq

/-- An external identity row: `(Provider, ProviderID)` identifies the
external account; `UserID` is the owning user. -/
structure Identity where
  ID : Nat
  UserID : Nat
  Provider : String
  ProviderID : String
  IdentityData : List (String × String)
deriving Repr, DecidableEq

/-- Audit action kinds used by the two handler versions:
`models.UserModifiedAction` (main) and `models.IdentityLinkAction` (alt). -/
inductive AuditAction where
  | userModified
  | identityLink
deriving Repr, DecidableEq

/-- An audit-log record: acting user id, action kind, and the traits the
handlers attach (`provider` in both versions, `identity_id` in the alt
version only). -/
structure AuditLogEntry where
  ActorID : Nat
  Action : AuditAction
  ProviderTrait : String
  IdentityIDTrait : Option Nat
deriving Repr, DecidableEq

/-- Verified claim data returned by `provider.ParseIDToken` alongside the
token: `userData.Metadata.Subject` is the stable external subject, and
`structs.Map(userData.Metadata)` is modelled as the assoc list `Metadata`. -/
structure UserData where
  Subject : String
  Metadata : List (String × String)
deriving Repr, DecidableEq

/-- The verified ID token fields the handlers read: audience list and nonce. -/
structure VerifiedIDToken where
  Audience : List String
  Nonce : String
deriving Repr, DecidableEq

/-- Options passed to `provider.ParseIDToken`, from `provider.ParseIDTokenOptions`. -/
structure ParseIDTokenOptions where
  SkipAccessTokenCheck : Bool
  AccessToken : String
deriving Repr, DecidableEq

/-- Result of `params.getProvider`: nonce-skip policy, canonical provider
type, and acceptable client ids (the verifier configuration itself is only
consumed by the token-verifier oracle, so it is not carried). -/
structure ProviderInfo where
  skipNonceCheck : Bool
  providerType : String
  acceptableClientIDs : List String
deriving Repr, DecidableEq

/-- Error-code constants referenced by the handlers. -/
inductive ErrorCode where
  | UserNotFound
  | ValidationFailed
  | IdentityAlreadyExists
deriving Repr, DecidableEq

/-- The error shapes the handlers construct (`unprocessableEntityError`,
`badRequestError`, `unauthorizedError`, `oauthError`, `internalServerError`),
plus `collaborator` for opaque errors surfaced unchanged from collaborators
(`retrieveRequestParams`, `getProvider`, `models.NewIdentity`,
`models.NewAuditLogEntry`). `WithInternalError` attaches a cause that is
never serialized, so causes are not carried. -/
inductive ApiError where
  | unprocessableEntity (code : ErrorCode) (msg : String)
  | badRequest (code : ErrorCode) (msg : String)
  | unauthorized (msg : String)
  | oauth (code : String) (msg : String)
  | internalServer (msg : String)
  | collaborator (tag : Nat)
deriving Repr, DecidableEq

/-- Persistent storage state: identity rows, user rows, the append-only
audit log, and a fresh-id counter for identity creation. -/
structure DBState where
  identities : List Identity
  users : List User
  auditEntries : List AuditLogEntry
  nextIdentityID : Nat
deriving Repr, DecidableEq

/-- Oracle environment standing for the external collaborators and for
failure injection at each storage step inside the transaction. -/
structure Env where
  ctxUser : Option User
  paramsResult : Except ApiError IdTokenGrantParams
  providerResult : Except ApiError ProviderInfo
  parseIDToken : ParseIDTokenOptions → Except Unit (VerifiedIDToken × UserData)
  findStorageError : Bool
  newIdentityError : Option ApiError
  createFails : Bool
  updateMetaFails : Bool
  updateProvidersFails : Bool
  auditError : Option ApiError

/-- Trace of collaborator invocations: whether `getProvider` ran, and the
options `provider.ParseIDToken` was invoked with (if it was). -/
structure Trace where
  providerResolved : Bool
  parseCalled : Option ParseIDTokenOptions
deriving Repr, DecidableEq

/-- A handler run: the returned value (HTTP status and user on success, or
the error), the post-run storage state, and the collaborator trace. -/
structure HResult where
  result : Except ApiError (Nat × User)
  state : DBState
  trace : Trace
deriving Repr

instance : DecidableEq (Except ApiError (Nat × User)) := fun a b =>
  match a, b with
  | .ok x, .ok y => if h : x = y then .isTrue (by rw [h]) else .isFalse (by intro hc; cases hc; exact h rfl)
  | .error x, .error y => if h : x = y then .isTrue (by rw [h]) else .isFalse (by intro hc; cases hc; exact h rfl)
  | .ok _, .error _ => .isFalse (by intro hc; cases hc)
  | .error _, .ok _ => .isFalse (by intro hc; cases hc)

instance : DecidableEq HResult := fun a b => by
  cases a; cases b
  exact decidable_of_iff _ (Iff.of_eq (HResult.mk.injEq _ _ _ _ _ _)).symm

/-- Lookup from `models.FindIdentityByIdAndProvider(tx, providerID, providerType)`:
the identity row matching the given external subject and provider type. -/
def FindIdentityByIdAndProvider (st : DBState) (providerID providerType : String) : Option Identity :=
  st.identities.find? (fun i => i.ProviderID == providerID && i.Provider == providerType)

/-- Modelled from the spec: `models.NewIdentity(user, providerType, identityData)`
builds an Identity with a fresh id, owned by `user`, for the given provider
type, whose provider-subject is the verified token subject and whose
metadata map is the claim metadata. The fresh id is drawn from the state
counter. -/
def NewIdentity (st : DBState) (user : User) (providerType : String)
    (identityData : List (String × String)) (subject : String) : Identity :=
  { ID := st.nextIdentityID, UserID := user.ID, Provider := providerType,
    ProviderID := subject, IdentityData := identityData }

/-- Assoc-list update: overwrite the value at a key, or append the pair. -/
def setKey : List (String × String) → String → String → List (String × String)
  | [], k, v => [(k, v)]
  | (k', v') :: rest, k, v =>
    if k' = k then (k, v) :: rest else (k', v') :: setKey rest k v

/-- Modelled from the spec: `User.UpdateUserMetaData` merges the claim
metadata into the user's metadata map — insertion of new keys, overwrite of
existing keys with the provider's values. -/
def mergeUserMetaData (old upd : List (String × String)) : List (String × String) :=
  upd.foldl (fun acc kv => setKey acc kv.1 kv.2) old

/-- Modelled from the spec: `User.UpdateAppMetaDataProviders` appends the
provider type to the user's provider list if absent. -/
def addProvider (ps : List String) (p : String) : List String :=
  if ps.contains p then ps else ps ++ [p]

/-- Persist a mutated user row. -/
def DBState.updateUser (st : DBState) (u : User) : DBState :=
  { st with users := st.users.map (fun v => if v.ID = u.ID then u else v) }

/-- Modelled from the spec: `db.Transaction` runs the body as one atomic
unit of work — on error the whole unit is discarded (the pre-transaction
state is kept) and the error surfaced; on success the new state commits. -/
def Transaction (st : DBState) (body : DBState → Except ApiError (User × DBState)) :
    Except ApiError (User × DBState) × DBState :=
  match body st with
  | .error e => (.error e, st)
  | .ok (u, st') => (.ok (u, st'), st')

/-- Tail of both handler versions: surface a transaction error unchanged, or
answer HTTP 200 with the mutated user (`sendJSON(w, http.StatusOK, user)`). -/
def txOutcome (txr : Except ApiError (User × DBState) × DBState) (tr : Trace) : HResult :=
  match txr with
  | (.error e, st') => { result := .error e, state := st', trace := tr }
  | (.ok (user1, _), st') => { result := .ok (200, user1), state := st', trace := tr }

/-- A state with its audit log removed, for comparing states "apart from
the content of the audit record". -/
def DBState.eraseAudit (st : DBState) : DBState :=
  { st with auditEntries := [] }

/-- Audience loop of both handler versions: scan `acceptableClientIDs`,
skipping blank entries, and succeed on the first one contained in the
token's audience list (exact string equality). -/
def correctAudience : List String → List String → Bool
  | [], _ => false
  | clientID :: rest, audience =>
    if clientID = "" then correctAudience rest audience
    else if audience.contains clientID then true
    else correctAudience rest audience

/-- Request validation checks shared verbatim by both handler versions
(`id_token` required; `provider` or both of `client_id` and `issuer`
required). Returns the error to fail with, or `none` to proceed. -/
def validateLinkRequest (params : IdTokenGrantParams) : Option ApiError :=
  if params.IdToken = "" then
    some (.badRequest .ValidationFailed "id_token is required")
  else if params.Provider = "" ∧ (params.ClientID = "" ∨ params.Issuer = "") then
    some (.badRequest .ValidationFailed "provider or client_id and issuer are required")
  else none

/-- Options both versions build for `provider.ParseIDToken`:
cross-check skipped exactly when no access token was supplied. -/
def mkParseOptions (params : IdTokenGrantParams) : ParseIDTokenOptions :=
  { SkipAccessTokenCheck := params.AccessToken == "", AccessToken := params.AccessToken }

/-- Transaction body of the main version (`link-identity-token.go` lines
92-137): conflict re-check, identity creation, metadata merge, provider
list update, audit write with `UserModifiedAction` and a `provider` trait. -/
def linkTxMain (env : Env) (user : User) (providerType : String) (userData : UserData)
    (st : DBState) : Except ApiError (User × DBState) :=
  if env.findStorageError then
    .error (.internalServer "Database error finding identity")
  else
    match FindIdentityByIdAndProvider st userData.Subject providerType with
    | some identity =>
      if identity.UserID = user.ID then
        .error (.unprocessableEntity .IdentityAlreadyExists "Identity is already linked to this user")
      else
        .error (.unprocessableEntity .IdentityAlreadyExists "Identity is already linked to another user")
    | none =>
      match env.newIdentityError with
      | some e => .error e
      | none =>
        let identityData := userData.Metadata
        let newId := NewIdentity st user providerType identityData userData.Subject
        if env.createFails then .error (.internalServer "Error creating identity")
        else
          let st1 := { st with identities := st.identities ++ [newId],
                               nextIdentityID := st.nextIdentityID + 1 }
          if env.updateMetaFails then .error (.internalServer "Error updating user metadata")
          else
            let user1 := { user with UserMetaData := mergeUserMetaData user.UserMetaData identityData }
            let st2 := st1.updateUser user1
            if env.updateProvidersFails then .error (.internalServer "Error updating user providers")
            else
              let user2 := { user1 with Providers := addProvider user1.Providers providerType }
              let st3 := st2.updateUser user2
              match env.auditError with
              | some e => .error e
              | none =>
                let entry : AuditLogEntry :=
                  { ActorID := user.ID, Action := .userModified,
                    ProviderTrait := providerType, IdentityIDTrait := none }
                .ok (user2, { st3 with auditEntries := st3.auditEntries ++ [entry] })

/-- Transaction body of the alt version (`part_000` lines 99-144): identical
to the main version except the audit write uses `IdentityLinkAction` and
also records the new identity's id. -/
def linkTxAlt (env : Env) (user : User) (providerType : String) (userData : UserData)
    (st : DBState) : Except ApiError (User × DBState) :=
  if env.findStorageError then
    .error (.internalServer "Database error finding identity")
  else
    match FindIdentityByIdAndProvider st userData.Subject providerType with
    | some identity =>
      if identity.UserID = user.ID then
        .error (.unprocessableEntity .IdentityAlreadyExists "Identity is already linked to this user")
      else
        .error (.unprocessableEntity .IdentityAlreadyExists "Identity is already linked to another user")
    | none =>
      match env.newIdentityError with
      | some e => .error e
      | none =>
        let identityData := userData.Metadata
        let newId := NewIdentity st user providerType identityData userData.Subject
        if env.createFails then .error (.internalServer "Error creating identity")
        else
          let st1 := { st with identities := st.identities ++ [newId],
                               nextIdentityID := st.nextIdentityID + 1 }
          if env.updateMetaFails then .error (.internalServer "Error updating user metadata")
          else
            let user1 := { user with UserMetaData := mergeUserMetaData user.UserMetaData identityData }
            let st2 := st1.updateUser user1
            if env.updateProvidersFails then .error (.internalServer "Error updating user providers")
            else
              let user2 := { user1 with Providers := addProvider user1.Providers providerType }
              let st3 := st2.updateUser user2
              match env.auditError with
              | some e => .error e
              | none =>
                let entry : AuditLogEntry :=
                  { ActorID := user.ID, Action := .identityLink,
                    ProviderTrait := providerType, IdentityIDTrait := some newId.ID }
                .ok (user2, { st3 with auditEntries := st3.auditEntries ++ [entry] })

/-- Main handler version, `src/internal/api/link-identity-token.go`:
user check first, then request decoding, validation, provider resolution,
token parse, audience check, nonce check (error code `invalid_nonce`),
then the transaction with `linkTxMain`. -/
def LinkIdentityWithIDToken (env : Env) (st : DBState) : HResult :=
  let tr0 : Trace := { providerResolved := false, parseCalled := none }
  match env.ctxUser with
  | none =>
    { result := .error (.unprocessableEntity .UserNotFound "Missing authenticated user"),
      state := st, trace := tr0 }
  | some user =>
    match env.paramsResult with
    | .error e => { result := .error e, state := st, trace := tr0 }
    | .ok params =>
      match validateLinkRequest params with
      | some e => { result := .error e, state := st, trace := tr0 }
      | none =>
        let tr1 : Trace := { tr0 with providerResolved := true }
        match env.providerResult with
        | .error e => { result := .error e, state := st, trace := tr1 }
        | .ok pinfo =>
          let opts := mkParseOptions params
          let tr2 : Trace := { tr1 with parseCalled := some opts }
          match env.parseIDToken opts with
          | .error _ =>
            { result := .error (.oauth "invalid_request" "Bad ID token"), state := st, trace := tr2 }
          | .ok (idToken, userData) =>
            if correctAudience pinfo.acceptableClientIDs idToken.Audience = false then
              { result := .error (.oauth "invalid_request" "Unacceptable audience in id_token"),
                state := st, trace := tr2 }
            else if pinfo.skipNonceCheck = false ∧ params.Nonce ≠ "" ∧ params.Nonce ≠ idToken.Nonce then
              { result := .error (.oauth "invalid_nonce" "Invalid nonce"), state := st, trace := tr2 }
            else
              txOutcome (Transaction st (linkTxMain env user pinfo.providerType userData)) tr2

/-- Alt handler version, `src/unnamed/part_000`: request decoding and
validation first, then the user check (failing with `unauthorizedError`),
provider resolution, token parse, audience check, nonce check (error code
`invalid_request`), then the transaction with `linkTxAlt`. -/
def LinkIdentityWithIDTokenAlt (env : Env) (st : DBState) : HResult :=
  let tr0 : Trace := { providerResolved := false, parseCalled := none }
  match env.paramsResult with
  | .error e => { result := .error e, state := st, trace := tr0 }
  | .ok params =>
    match validateLinkRequest params with
    | some e => { result := .error e, state := st, trace := tr0 }
    | none =>
      match env.ctxUser with
      | none =>
        { result := .error (.unauthorized "Missing authenticated user"), state := st, trace := tr0 }
      | some user =>
        let tr1 : Trace := { tr0 with providerResolved := true }
        match env.providerResult with
        | .error e => { result := .error e, state := st, trace := tr1 }
        | .ok pinfo =>
          let opts := mkParseOptions params
          let tr2 : Trace := { tr1 with parseCalled := some opts }
          match env.parseIDToken opts with
          | .error _ =>
            { result := .error (.oauth "invalid_request" "Bad ID token"), state := st, trace := tr2 }
          | .ok (idToken, userData) =>
            if correctAudience pinfo.acceptableClientIDs idToken.Audience = false then
              { result := .error (.oauth "invalid_request" "Unacceptable audience in id_token"),
                state := st, trace := tr2 }
            else if pinfo.skipNonceCheck = false ∧ params.Nonce ≠ "" ∧ params.Nonce ≠ idToken.Nonce then
              { result := .error (.oauth "invalid_request" "Invalid nonce"), state := st, trace := tr2 }
            else
              txOutcome (Transaction st (linkTxAlt env user pinfo.providerType userData)) tr2

/-! Concrete fixtures used by witnesses and counterexamples. -/

/-- A sample authenticated user. -/
def u7 : User := { ID := 7, UserMetaData := [("name", "old")], Providers := ["email"] }

/-- A baseline storage state holding only `u7`. -/
def stBase : DBState := { identities := [], users := [u7], auditEntries := [], nextIdentityID := 100 }

/-- A baseline well-formed request. -/
def paramsBase : IdTokenGrantParams :=
  { IdToken := "tok", Provider := "google", AccessToken := "", Nonce := "",
    ClientID := "", Issuer := "" }

/-- A baseline provider resolution. -/
def pinfoBase : ProviderInfo :=
  { skipNonceCheck := false, providerType := "google", acceptableClientIDs := ["clientA"] }

/-- A baseline verified token. -/
def tokBase : VerifiedIDToken := { Audience := ["clientA"], Nonce := "n1" }

/-- Baseline verified claim data. -/
def udBase : UserData := { Subject := "sub-1", Metadata := [("name", "new"), ("sub", "sub-1")] }

/-- An identity row already linking `u7` to the external account `sub-1`
at provider `google`. -/
def identExisting : Identity :=
  { ID := 50, UserID := 7, Provider := "google", ProviderID := "sub-1", IdentityData := [] }

/-- The baseline state with `identExisting` already present. -/
def stWithIdent : DBState :=
  { identities := [identExisting], users := [u7], auditEntries := [], nextIdentityID := 100 }

/-- A baseline environment in which every collaborator succeeds. -/
def envBase : Env :=
  { ctxUser := some u7
  , paramsResult := .ok paramsBase
  , providerResult := .ok pinfoBase
  , parseIDToken := fun _ => .ok (tokBase, udBase)
  , findStorageError := false, newIdentityError := none, createFails := false
  , updateMetaFails := false, updateProvidersFails := false, auditError := none }

/-! Helper lemmas shared across the claim theorems. -/

/-- Membership reading of the audience loop. -/
theorem correctAudience_iff (acc aud : List String) :
    correctAudience acc aud = true ↔ ∃ c, c ∈ acc ∧ c ≠ "" ∧ c ∈ aud := by
  induction acc with
  | nil => simp [correctAudience]
  | cons c cs ih =>
    simp only [correctAudience]
    by_cases hc : c = ""
    · rw [if_pos hc, ih]
      constructor
      · rintro ⟨x, hx, hne, hmem⟩
        exact ⟨x, List.mem_cons_of_mem _ hx, hne, hmem⟩
      · rintro ⟨x, hx, hne, hmem⟩
        rcases List.mem_cons.mp hx with h | h
        · exact absurd (h.trans hc) hne
        · exact ⟨x, h, hne, hmem⟩
    · rw [if_neg hc]
      by_cases hcont : aud.contains c = true
      · rw [if_pos hcont]
        exact iff_of_true rfl ⟨c, List.mem_cons_self c cs, hc, by simpa using hcont⟩
      · rw [if_neg hcont, ih]
        constructor
        · rintro ⟨x, hx, hne, hmem⟩
          exact ⟨x, List.mem_cons_of_mem _ hx, hne, hmem⟩
        · rintro ⟨x, hx, hne, hmem⟩
          rcases List.mem_cons.mp hx with h | h
          · exact absurd (by simpa using h ▸ hmem) hcont
          · exact ⟨x, h, hne, hmem⟩

/-- The trace attached to a transaction outcome is the one passed in. -/
theorem txOutcome_trace (x : Except ApiError (User × DBState) × DBState) (tr : Trace) :
    (txOutcome x tr).trace = tr := by
  unfold txOutcome
  rcases x with ⟨e | u, st⟩ <;> simp

/-- A rolled-back transaction returns the pre-transaction state. -/
theorem Transaction_error_state (st : DBState) (body : DBState → Except ApiError (User × DBState))
    (e : ApiError) (st' : DBState) (h : Transaction st body = (.error e, st')) : st' = st := by
  unfold Transaction at h
  rcases hb : body st with e' | p <;> rw [hb] at h
  · exact (Prod.mk.injEq _ _ _ _ ▸ h).2.symm ▸ rfl
  · rcases p with ⟨u, s⟩
    cases h

/-- How the main handler behaves once the user, request, validation,
provider resolution and token parse are fixed. -/
theorem mainReach (env : Env) (st : DBState) (user : User)
    (params : IdTokenGrantParams) (pinfo : ProviderInfo) (idToken : VerifiedIDToken)
    (userData : UserData)
    (hu : env.ctxUser = some user) (hp : env.paramsResult = .ok params)
    (hv : validateLinkRequest params = none) (hpr : env.providerResult = .ok pinfo)
    (hparse : env.parseIDToken (mkParseOptions params) = .ok (idToken, userData)) :
    LinkIdentityWithIDToken env st =
      if correctAudience pinfo.acceptableClientIDs idToken.Audience = false then
        { result := .error (.oauth "invalid_request" "Unacceptable audience in id_token"),
          state := st,
          trace := { providerResolved := true, parseCalled := some (mkParseOptions params) } }
      else if pinfo.skipNonceCheck = false ∧ params.Nonce ≠ "" ∧ params.Nonce ≠ idToken.Nonce then
        { result := .error (.oauth "invalid_nonce" "Invalid nonce"), state := st,
          trace := { providerResolved := true, parseCalled := some (mkParseOptions params) } }
      else
        txOutcome (Transaction st (linkTxMain env user pinfo.providerType userData))
          { providerResolved := true, parseCalled := some (mkParseOptions params) } := by
  simp only [LinkIdentityWithIDToken, hu, hp, hv, hpr, hparse]

/-- How the alt handler behaves once the user, request, validation,
provider resolution and token parse are fixed. -/
theorem altReach (env : Env) (st : DBState) (user : User)
    (params : IdTokenGrantParams) (pinfo : ProviderInfo) (idToken : VerifiedIDToken)
    (userData : UserData)
    (hu : env.ctxUser = some user) (hp : env.paramsResult = .ok params)
    (hv : validateLinkRequest params = none) (hpr : env.providerResult = .ok pinfo)
    (hparse : env.parseIDToken (mkParseOptions params) = .ok (idToken, userData)) :
    LinkIdentityWithIDTokenAlt env st =
      if correctAudience pinfo.acceptableClientIDs idToken.Audience = false then
        { result := .error (.oauth "invalid_request" "Unacceptable audience in id_token"),
          state := st,
          trace := { providerResolved := true, parseCalled := some (mkParseOptions params) } }
      else if pinfo.skipNonceCheck = false ∧ params.Nonce ≠ "" ∧ params.Nonce ≠ idToken.Nonce then
        { result := .error (.oauth "invalid_request" "Invalid nonce"), state := st,
          trace := { providerResolved := true, parseCalled := some (mkParseOptions params) } }
      else
        txOutcome (Transaction st (linkTxAlt env user pinfo.providerType userData))
          { providerResolved := true, parseCalled := some (mkParseOptions params) } := by
  simp only [LinkIdentityWithIDTokenAlt, hu, hp, hv, hpr, hparse]

/-- C3: the audience check succeeds exactly when some non-blank acceptable
client id equals (string equality) some element of the token's audience
list; when no such match exists, both handler versions fail with the
unacceptable-audience error and leave the state untouched, even though all
other checks would pass. -/
theorem audience_check_characterization (env : Env) (st : DBState) (user : User)
    (params : IdTokenGrantParams) (pinfo : ProviderInfo) (idToken : VerifiedIDToken)
    (userData : UserData) :
    (correctAudience pinfo.acceptableClientIDs idToken.Audience = true ↔
       ∃ c, c ∈ pinfo.acceptableClientIDs ∧ c ≠ "" ∧ c ∈ idToken.Audience)
    ∧ (env.ctxUser = some user → env.paramsResult = .ok params →
        validateLinkRequest params = none → env.providerResult = .ok pinfo →
        env.parseIDToken (mkParseOptions params) = .ok (idToken, userData) →
        (¬∃ c, c ∈ pinfo.acceptableClientIDs ∧ c ≠ "" ∧ c ∈ idToken.Audience) →
        ((LinkIdentityWithIDToken env st).result =
            .error (.oauth "invalid_request" "Unacceptable audience in id_token")
          ∧ (LinkIdentityWithIDToken env st).state = st
          ∧ (LinkIdentityWithIDTokenAlt env st).result =
              .error (.oauth "invalid_request" "Unacceptable audience in id_token")
          ∧ (LinkIdentityWithIDTokenAlt env st).state = st)) := by
  refine ⟨correctAudience_iff _ _, ?_⟩
  intro hu hp hv hpr hparse hno
  have hfalse : correctAudience pinfo.acceptableClientIDs idToken.Audience = false := by
    cases h : correctAudience pinfo.acceptableClientIDs idToken.Audience
    · rfl
    · exact absurd ((correctAudience_iff _ _).mp h) hno
  rw [mainReach env st user params pinfo idToken userData hu hp hv hpr hparse,
    altReach env st user params pinfo idToken userData hu hp hv hpr hparse]
  rw [if_pos hfalse, if_pos hfalse]
  exact ⟨rfl, rfl, rfl, rfl⟩

/-- Witness for C3 at a concrete input: acceptable ids `["clientA"]` and
audience `["clientB"]` do not intersect, so both versions reject the link
with the unacceptable-audience error and do not change the state. -/
theorem audience_check_witness :
    (LinkIdentityWithIDToken
        { envBase with parseIDToken := fun _ => .ok ({ Audience := ["clientB"], Nonce := "n1" }, udBase) }
        stBase).result =
      .error (.oauth "invalid_request" "Unacceptable audience in id_token")
    ∧ (LinkIdentityWithIDToken
        { envBase with parseIDToken := fun _ => .ok ({ Audience := ["clientB"], Nonce := "n1" }, udBase) }
        stBase).state = stBase :=
  ((audience_check_characterization
      { envBase with parseIDToken := fun _ => .ok ({ Audience := ["clientB"], Nonce := "n1" }, udBase) }
      stBase u7 paramsBase pinfoBase { Audience := ["clientB"], Nonce := "n1" } udBase).2
    rfl rfl (by decide) rfl rfl (by decide)).imp id (fun h => h.1)

/-- C7: request validation fails with `ValidationFailed` exactly when the
id_token is empty, or the provider name is empty and the (client_id,
issuer) pair is incomplete; when it fails, the handler surfaces exactly the
validation error with the state untouched and neither the provider
resolver nor the token verifier invoked. -/
theorem validation_characterization (params : IdTokenGrantParams) :
    ((∃ msg, validateLinkRequest params = some (.badRequest .ValidationFailed msg)) ↔
       (params.IdToken = "" ∨ (params.Provider = "" ∧ (params.ClientID = "" ∨ params.Issuer = ""))))
    ∧ (∀ e, validateLinkRequest params = some e →
        ∃ msg, e = .badRequest .ValidationFailed msg)
    ∧ (∀ env st user e, env.ctxUser = some user → env.paramsResult = .ok params →
        validateLinkRequest params = some e →
        LinkIdentityWithIDToken env st =
          { result := .error e, state := st,
            trace := { providerResolved := false, parseCalled := none } }) := by
  refine ⟨?_, ?_, ?_⟩
  · unfold validateLinkRequest
    by_cases h1 : params.IdToken = ""
    · rw [if_pos h1]
      exact iff_of_true ⟨"id_token is required", rfl⟩ (Or.inl h1)
    · rw [if_neg h1]
      by_cases h2 : params.Provider = "" ∧ (params.ClientID = "" ∨ params.Issuer = "")
      · rw [if_pos h2]
        exact iff_of_true ⟨"provider or client_id and issuer are required", rfl⟩ (Or.inr h2)
      · rw [if_neg h2]
        constructor
        · rintro ⟨msg, hmsg⟩
          cases hmsg
        · rintro (h | h)
          · exact absurd h h1
          · exact absurd h h2
  · intro e he
    unfold validateLinkRequest at he
    by_cases h1 : params.IdToken = ""
    · rw [if_pos h1] at he
      exact ⟨"id_token is required", (Option.some.injEq _ _ ▸ he).symm⟩
    · rw [if_neg h1] at he
      by_cases h2 : params.Provider = "" ∧ (params.ClientID = "" ∨ params.Issuer = "")
      · rw [if_pos h2] at he
        exact ⟨"provider or client_id and issuer are required", (Option.some.injEq _ _ ▸ he).symm⟩
      · rw [if_neg h2] at he
        cases he
  · intro env st user e hu hp hval
    simp only [LinkIdentityWithIDToken, hu, hp, hval]

/-- Witness for C7 at a concrete input: a request with an empty id_token is
rejected with the `ValidationFailed` error before provider resolution or
token verification, leaving the state untouched. -/
theorem validation_witness :
    LinkIdentityWithIDToken
        { envBase with paramsResult := .ok { paramsBase with IdToken := "" } } stBase =
      { result := .error (.badRequest .ValidationFailed "id_token is required"),
        state := stBase, trace := { providerResolved := false, parseCalled := none } }
    ∧ ((∃ msg, validateLinkRequest { paramsBase with IdToken := "" } =
          some (.badRequest .ValidationFailed msg)) ↔
        ({ paramsBase with IdToken := "" } : IdTokenGrantParams).IdToken = ""
          ∨ (({ paramsBase with IdToken := "" } : IdTokenGrantParams).Provider = ""
              ∧ (({ paramsBase with IdToken := "" } : IdTokenGrantParams).ClientID = ""
                  ∨ ({ paramsBase with IdToken := "" } : IdTokenGrantParams).Issuer = ""))) :=
  ⟨(validation_characterization { paramsBase with IdToken := "" }).2.2
      { envBase with paramsResult := .ok { paramsBase with IdToken := "" } } stBase u7
      (.badRequest .ValidationFailed "id_token is required") rfl rfl rfl,
    (validation_characterization { paramsBase with IdToken := "" }).1⟩

/-- Inversion of the main handler's trace: the verifier was invoked only
with the options built from the decoded request. -/
theorem parseCalled_inv_main (env : Env) (st : DBState) (opts : ParseIDTokenOptions)
    (h : (LinkIdentityWithIDToken env st).trace.parseCalled = some opts) :
    ∃ params, env.paramsResult = .ok params ∧ opts = mkParseOptions params := by
  rcases hu : env.ctxUser with _ | user
  · simp [LinkIdentityWithIDToken, hu] at h
  rcases hp : env.paramsResult with e | params
  · simp [LinkIdentityWithIDToken, hu, hp] at h
  rcases hv : validateLinkRequest params with _ | e
  swap
  · simp [LinkIdentityWithIDToken, hu, hp, hv] at h
  rcases hpr : env.providerResult with e | pinfo
  · simp [LinkIdentityWithIDToken, hu, hp, hv, hpr] at h
  rcases hparse : env.parseIDToken (mkParseOptions params) with e | pr
  · simp [LinkIdentityWithIDToken, hu, hp, hv, hpr, hparse] at h
    exact ⟨params, rfl, h.symm⟩
  rcases pr with ⟨idToken, userData⟩
  rw [mainReach env st user params pinfo idToken userData hu hp hv hpr hparse] at h
  split at h
  · simp at h
    exact ⟨params, rfl, h.symm⟩
  split at h
  · simp at h
    exact ⟨params, rfl, h.symm⟩
  rw [txOutcome_trace] at h
  simp at h
  exact ⟨params, rfl, h.symm⟩

/-- Inversion of the alt handler's trace: the verifier was invoked only
with the options built from the decoded request. -/
theorem parseCalled_inv_alt (env : Env) (st : DBState) (opts : ParseIDTokenOptions)
    (h : (LinkIdentityWithIDTokenAlt env st).trace.parseCalled = some opts) :
    ∃ params, env.paramsResult = .ok params ∧ opts = mkParseOptions params := by
  rcases hp : env.paramsResult with e | params
  · simp [LinkIdentityWithIDTokenAlt, hp] at h
  rcases hv : validateLinkRequest params with _ | e
  swap
  · simp [LinkIdentityWithIDTokenAlt, hp, hv] at h
  rcases hu : env.ctxUser with _ | user
  · simp [LinkIdentityWithIDTokenAlt, hp, hv, hu] at h
  rcases hpr : env.providerResult with e | pinfo
  · simp [LinkIdentityWithIDTokenAlt, hp, hv, hu, hpr] at h
  rcases hparse : env.parseIDToken (mkParseOptions params) with e | pr
  · simp [LinkIdentityWithIDTokenAlt, hp, hv, hu, hpr, hparse] at h
    exact ⟨params, rfl, h.symm⟩
  rcases pr with ⟨idToken, userData⟩
  rw [altReach env st user params pinfo idToken userData hu hp hv hpr hparse] at h
  split at h
  · simp at h
    exact ⟨params, rfl, h.symm⟩
  split at h
  · simp at h
    exact ⟨params, rfl, h.symm⟩
  rw [txOutcome_trace] at h
  simp at h
  exact ⟨params, rfl, h.symm⟩

/-- C10: whenever either handler version invokes the token verifier, the
options it passes carry the request's access token verbatim and disable
the embedded access-token cross-check exactly when that access token is
the empty string. -/
theorem parse_options_access_token (env : Env) (st : DBState) (opts : ParseIDTokenOptions) :
    ((LinkIdentityWithIDToken env st).trace.parseCalled = some opts →
       ∃ params, env.paramsResult = .ok params ∧ opts = mkParseOptions params ∧
         opts.AccessToken = params.AccessToken ∧
         (opts.SkipAccessTokenCheck = true ↔ params.AccessToken = ""))
    ∧ ((LinkIdentityWithIDTokenAlt env st).trace.parseCalled = some opts →
       ∃ params, env.paramsResult = .ok params ∧ opts = mkParseOptions params ∧
         opts.AccessToken = params.AccessToken ∧
         (opts.SkipAccessTokenCheck = true ↔ params.AccessToken = "")) := by
  constructor
  · intro h
    obtain ⟨params, hp, hopts⟩ := parseCalled_inv_main env st opts h
    subst hopts
    exact ⟨params, hp, rfl, rfl, by simp [mkParseOptions]⟩
  · intro h
    obtain ⟨params, hp, hopts⟩ := parseCalled_inv_alt env st opts h
    subst hopts
    exact ⟨params, hp, rfl, rfl, by simp [mkParseOptions]⟩

/-- Witness for C10 at a concrete input: with a non-empty access token the
verifier is invoked with the cross-check enabled and that access token. -/
theorem parse_options_witness :
    ∃ params,
      ({ envBase with paramsResult := .ok { paramsBase with AccessToken := "at-1" } } : Env).paramsResult
          = .ok params
        ∧ ({ SkipAccessTokenCheck := false, AccessToken := "at-1" } : ParseIDTokenOptions)
            = mkParseOptions params
        ∧ ({ SkipAccessTokenCheck := false, AccessToken := "at-1" } : ParseIDTokenOptions).AccessToken
            = params.AccessToken
        ∧ (({ SkipAccessTokenCheck := false, AccessToken := "at-1" } : ParseIDTokenOptions).SkipAccessTokenCheck
              = true ↔ params.AccessToken = "") :=
  (parse_options_access_token
      { envBase with paramsResult := .ok { paramsBase with AccessToken := "at-1" } } stBase
      { SkipAccessTokenCheck := false, AccessToken := "at-1" }).1 (by decide)

/-- C1: inside the transaction, a lookup that finds an existing identity
for (provider-subject, provider-type) fails the link with
`IdentityAlreadyExists`, with the sub-reason chosen by whether the found
identity's owner is the requesting user; a lookup failure distinct from
not-found surfaces as an internal error; only a not-found lookup proceeds
past the conflict check to creation. -/
theorem conflict_check_characterization (env : Env) (user : User) (providerType : String)
    (userData : UserData) (st : DBState) :
    (env.findStorageError = true →
       linkTxMain env user providerType userData st =
         .error (.internalServer "Database error finding identity"))
    ∧ (∀ identity, env.findStorageError = false →
        FindIdentityByIdAndProvider st userData.Subject providerType = some identity →
        linkTxMain env user providerType userData st =
          .error (.unprocessableEntity .IdentityAlreadyExists
            (if identity.UserID = user.ID then "Identity is already linked to this user"
             else "Identity is already linked to another user")))
    ∧ (∀ r, linkTxMain env user providerType userData st = .ok r →
        env.findStorageError = false
          ∧ FindIdentityByIdAndProvider st userData.Subject providerType = none) := by
  refine ⟨?_, ?_, ?_⟩
  · intro h
    simp [linkTxMain, h]
  · intro identity hf hfind
    by_cases hid : identity.UserID = user.ID <;>
      simp [linkTxMain, hf, hfind, hid]
  · intro r hok
    cases hf : env.findStorageError
    · cases hfind : FindIdentityByIdAndProvider st userData.Subject providerType with
      | none => exact ⟨rfl, rfl⟩
      | some identity =>
        rw [linkTxMain] at hok
        simp only [hf, hfind, Bool.false_eq_true, if_false] at hok
        split at hok <;> cases hok
    · simp [linkTxMain, hf] at hok

/-- Witness for C1 at concrete inputs: with `identExisting` (owned by `u7`)
present, the transaction body rejects a link of the same external account
to `u7` as "already linked to this user"; with an injected lookup failure
it surfaces an internal error. -/
theorem conflict_check_witness :
    (linkTxMain envBase u7 "google" udBase stWithIdent =
      .error (.unprocessableEntity .IdentityAlreadyExists "Identity is already linked to this user"))
    ∧ (linkTxMain { envBase with findStorageError := true } u7 "google" udBase stWithIdent =
      .error (.internalServer "Database error finding identity")) :=
  ⟨(conflict_check_characterization envBase u7 "google" udBase stWithIdent).2.1
      identExisting rfl (by decide),
    (conflict_check_characterization { envBase with findStorageError := true } u7 "google"
      udBase stWithIdent).1 rfl⟩

/-- A transaction outcome whose result is an error keeps the
pre-transaction state. -/
theorem txOutcome_error_state (st : DBState) (body : DBState → Except ApiError (User × DBState))
    (tr : Trace) (e : ApiError)
    (h : (txOutcome (Transaction st body) tr).result = .error e) :
    (txOutcome (Transaction st body) tr).state = st := by
  rcases hT : Transaction st body with ⟨res, st'⟩
  rcases res with e' | ⟨u, s⟩
  · have hst := Transaction_error_state st body e' st' hT
    simp [txOutcome, hst]
  · rw [hT] at h
    simp [txOutcome] at h

/-- Any failing run of the main handler leaves the state unchanged. -/
theorem main_error_state (env : Env) (st : DBState) (e : ApiError)
    (h : (LinkIdentityWithIDToken env st).result = .error e) :
    (LinkIdentityWithIDToken env st).state = st := by
  rcases hu : env.ctxUser with _ | user
  · simp [LinkIdentityWithIDToken, hu]
  rcases hp : env.paramsResult with e' | params
  · simp [LinkIdentityWithIDToken, hu, hp]
  rcases hv : validateLinkRequest params with _ | e'
  swap
  · simp [LinkIdentityWithIDToken, hu, hp, hv]
  rcases hpr : env.providerResult with e' | pinfo
  · simp [LinkIdentityWithIDToken, hu, hp, hv, hpr]
  rcases hparse : env.parseIDToken (mkParseOptions params) with e' | ⟨idToken, userData⟩
  · simp [LinkIdentityWithIDToken, hu, hp, hv, hpr, hparse]
  rw [mainReach env st user params pinfo idToken userData hu hp hv hpr hparse] at h ⊢
  by_cases hca : correctAudience pinfo.acceptableClientIDs idToken.Audience = false
  · simp [hca]
  rw [if_neg hca] at h ⊢
  by_cases hn : pinfo.skipNonceCheck = false ∧ params.Nonce ≠ "" ∧ params.Nonce ≠ idToken.Nonce
  · simp [hn]
  rw [if_neg hn] at h ⊢
  exact txOutcome_error_state st _ _ e h

/-- With an injected audit-write failure, the transaction body of the main
version always errors. -/
theorem linkTxMain_auditError (env : Env) (user : User) (providerType : String)
    (userData : UserData) (st : DBState) (e0 : ApiError) (ha : env.auditError = some e0) :
    ∃ e, linkTxMain env user providerType userData st = .error e := by
  cases hf : env.findStorageError
  · cases hfind : FindIdentityByIdAndProvider st userData.Subject providerType with
    | some i =>
      by_cases hid : i.UserID = user.ID
      · exact ⟨.unprocessableEntity .IdentityAlreadyExists "Identity is already linked to this user",
          by simp [linkTxMain, hf, hfind, hid]⟩
      · exact ⟨.unprocessableEntity .IdentityAlreadyExists "Identity is already linked to another user",
          by simp [linkTxMain, hf, hfind, hid]⟩
    | none =>
      cases hni : env.newIdentityError with
      | some e => exact ⟨e, by simp [linkTxMain, hf, hfind, hni]⟩
      | none =>
        cases hc : env.createFails
        · cases hm : env.updateMetaFails
          · cases hpv : env.updateProvidersFails
            · exact ⟨e0, by simp [linkTxMain, hf, hfind, hni, hc, hm, hpv, ha]⟩
            · exact ⟨.internalServer "Error updating user providers",
                by simp [linkTxMain, hf, hfind, hni, hc, hm, hpv]⟩
          · exact ⟨.internalServer "Error updating user metadata",
              by simp [linkTxMain, hf, hfind, hni, hc, hm]⟩
        · exact ⟨.internalServer "Error creating identity",
            by simp [linkTxMain, hf, hfind, hni, hc]⟩
  · exact ⟨.internalServer "Database error finding identity", by simp [linkTxMain, hf]⟩

/-- With an injected audit-write failure, the main handler always fails. -/
theorem main_auditError_fails (env : Env) (st : DBState) (e0 : ApiError)
    (ha : env.auditError = some e0) :
    ∃ e, (LinkIdentityWithIDToken env st).result = .error e := by
  rcases hu : env.ctxUser with _ | user
  · exact ⟨.unprocessableEntity .UserNotFound "Missing authenticated user",
      by simp [LinkIdentityWithIDToken, hu]⟩
  rcases hp : env.paramsResult with e' | params
  · exact ⟨e', by simp [LinkIdentityWithIDToken, hu, hp]⟩
  rcases hv : validateLinkRequest params with _ | e'
  swap
  · exact ⟨e', by simp [LinkIdentityWithIDToken, hu, hp, hv]⟩
  rcases hpr : env.providerResult with e' | pinfo
  · exact ⟨e', by simp [LinkIdentityWithIDToken, hu, hp, hv, hpr]⟩
  rcases hparse : env.parseIDToken (mkParseOptions params) with e' | ⟨idToken, userData⟩
  · exact ⟨.oauth "invalid_request" "Bad ID token",
      by simp [LinkIdentityWithIDToken, hu, hp, hv, hpr, hparse]⟩
  rw [mainReach env st user params pinfo idToken userData hu hp hv hpr hparse]
  by_cases hca : correctAudience pinfo.acceptableClientIDs idToken.Audience = false
  · exact ⟨.oauth "invalid_request" "Unacceptable audience in id_token", by rw [if_pos hca]⟩
  rw [if_neg hca]
  by_cases hn : pinfo.skipNonceCheck = false ∧ params.Nonce ≠ "" ∧ params.Nonce ≠ idToken.Nonce
  · exact ⟨.oauth "invalid_nonce" "Invalid nonce", by rw [if_pos hn]⟩
  rw [if_neg hn]
  obtain ⟨e, he⟩ := linkTxMain_auditError env user pinfo.providerType userData st e0 ha
  exact ⟨e, by simp [Transaction, txOutcome, he]⟩

/-- C2: every failing run of the main handler rolls the storage back to the
pre-request state (no identity row, no metadata change, no provider-list
change, no audit entry persists) and surfaces the error; in particular an
injected failure of the audit-write step always fails the whole operation
with a full rollback. -/
theorem transaction_atomicity (env : Env) (st : DBState) :
    (∀ e, (LinkIdentityWithIDToken env st).result = .error e →
       (LinkIdentityWithIDToken env st).state = st)
    ∧ (∀ e0, env.auditError = some e0 →
        (∃ e, (LinkIdentityWithIDToken env st).result = .error e)
          ∧ (LinkIdentityWithIDToken env st).state = st) := by
  refine ⟨fun e h => main_error_state env st e h, fun e0 ha => ?_⟩
  obtain ⟨e, he⟩ := main_auditError_fails env st e0 ha
  exact ⟨⟨e, he⟩, main_error_state env st e he⟩

/-- Witness for C2 at a concrete input: injecting an audit-write failure
into an otherwise fully successful run fails the request and leaves the
baseline state exactly as it was. -/
theorem transaction_atomicity_witness :
    (∃ e, (LinkIdentityWithIDToken { envBase with auditError := some (.collaborator 5) } stBase).result
        = .error e)
    ∧ (LinkIdentityWithIDToken { envBase with auditError := some (.collaborator 5) } stBase).state
        = stBase :=
  (transaction_atomicity { envBase with auditError := some (.collaborator 5) } stBase).2
    (.collaborator 5) rfl

/-- C4: once a request reaches the nonce gate (with a passing audience
check), the gate is skipped entirely when the provider policy says so or
when the request carries no nonce, and also passes when the nonces are
equal — in all those cases both versions proceed to the transaction; when
nonce checking is required and the nonces differ, each version fails with
its invalid-nonce error and the state is untouched. -/
theorem nonce_check_characterization (env : Env) (st : DBState) (user : User)
    (params : IdTokenGrantParams) (pinfo : ProviderInfo) (idToken : VerifiedIDToken)
    (userData : UserData)
    (hu : env.ctxUser = some user) (hp : env.paramsResult = .ok params)
    (hv : validateLinkRequest params = none) (hpr : env.providerResult = .ok pinfo)
    (hparse : env.parseIDToken (mkParseOptions params) = .ok (idToken, userData))
    (haud : correctAudience pinfo.acceptableClientIDs idToken.Audience = true) :
    ((pinfo.skipNonceCheck = true ∨ params.Nonce = "" ∨ params.Nonce = idToken.Nonce) →
       (LinkIdentityWithIDToken env st =
          txOutcome (Transaction st (linkTxMain env user pinfo.providerType userData))
            { providerResolved := true, parseCalled := some (mkParseOptions params) }
        ∧ LinkIdentityWithIDTokenAlt env st =
          txOutcome (Transaction st (linkTxAlt env user pinfo.providerType userData))
            { providerResolved := true, parseCalled := some (mkParseOptions params) }))
    ∧ (pinfo.skipNonceCheck = false → params.Nonce ≠ "" → params.Nonce ≠ idToken.Nonce →
       ((LinkIdentityWithIDToken env st).result = .error (.oauth "invalid_nonce" "Invalid nonce")
        ∧ (LinkIdentityWithIDToken env st).state = st
        ∧ (LinkIdentityWithIDTokenAlt env st).result =
            .error (.oauth "invalid_request" "Invalid nonce")
        ∧ (LinkIdentityWithIDTokenAlt env st).state = st)) := by
  have hca : ¬(correctAudience pinfo.acceptableClientIDs idToken.Audience = false) := by
    simp [haud]
  rw [mainReach env st user params pinfo idToken userData hu hp hv hpr hparse,
    altReach env st user params pinfo idToken userData hu hp hv hpr hparse]
  rw [if_neg hca, if_neg hca]
  constructor
  · intro hskip
    have hn : ¬(pinfo.skipNonceCheck = false ∧ params.Nonce ≠ "" ∧ params.Nonce ≠ idToken.Nonce) := by
      rcases hskip with h | h | h
      · rintro ⟨h1, -, -⟩
        rw [h] at h1
        cases h1
      · rintro ⟨-, h2, -⟩
        exact h2 h
      · rintro ⟨-, -, h3⟩
        exact h3 h
    rw [if_neg hn, if_neg hn]
    exact ⟨rfl, rfl⟩
  · intro h1 h2 h3
    rw [if_pos ⟨h1, h2, h3⟩, if_pos ⟨h1, h2, h3⟩]
    exact ⟨rfl, rfl, rfl, rfl⟩

/-- Witness for C4 at concrete inputs: with nonce checking required,
request nonce "abc" and token nonce "xyz", both versions fail with their
invalid-nonce error and do not change the state. -/
theorem nonce_check_witness :
    ((LinkIdentityWithIDToken
        { envBase with
            paramsResult := .ok { paramsBase with Nonce := "abc" },
            parseIDToken := fun _ => .ok ({ Audience := ["clientA"], Nonce := "xyz" }, udBase) }
        stBase).result = .error (.oauth "invalid_nonce" "Invalid nonce")
      ∧ (LinkIdentityWithIDToken
        { envBase with
            paramsResult := .ok { paramsBase with Nonce := "abc" },
            parseIDToken := fun _ => .ok ({ Audience := ["clientA"], Nonce := "xyz" }, udBase) }
        stBase).state = stBase
      ∧ (LinkIdentityWithIDTokenAlt
        { envBase with
            paramsResult := .ok { paramsBase with Nonce := "abc" },
            parseIDToken := fun _ => .ok ({ Audience := ["clientA"], Nonce := "xyz" }, udBase) }
        stBase).result = .error (.oauth "invalid_request" "Invalid nonce")
      ∧ (LinkIdentityWithIDTokenAlt
        { envBase with
            paramsResult := .ok { paramsBase with Nonce := "abc" },
            parseIDToken := fun _ => .ok ({ Audience := ["clientA"], Nonce := "xyz" }, udBase) }
        stBase).state = stBase) :=
  (nonce_check_characterization
      { envBase with
          paramsResult := .ok { paramsBase with Nonce := "abc" },
          parseIDToken := fun _ => .ok ({ Audience := ["clientA"], Nonce := "xyz" }, udBase) }
      stBase u7 { paramsBase with Nonce := "abc" } pinfoBase
      { Audience := ["clientA"], Nonce := "xyz" } udBase
      rfl rfl (by decide) rfl rfl (by decide)).2 rfl (by decide) (by decide)

/-- Persisting two mutations of the same user row is the same as persisting
the second one. -/
theorem updateUser_twice (l : List User) (uid : Nat) (u1 u2 : User) (h : u1.ID = uid) :
    (l.map (fun v => if v.ID = uid then u1 else v)).map
        (fun v => if v.ID = uid then u2 else v)
      = l.map (fun v => if v.ID = uid then u2 else v) := by
  rw [List.map_map]
  refine List.map_congr_left fun a _ => ?_
  by_cases ha : a.ID = uid
  · simp [Function.comp, ha, h]
  · simp [Function.comp, ha]

/-- Success inversion for the main transaction body: characterizes the
returned user and the committed state. -/
theorem linkTxMain_ok (env : Env) (user : User) (pt : String) (ud : UserData) (st : DBState)
    (u' : User) (st' : DBState)
    (h : linkTxMain env user pt ud st = .ok (u', st')) :
    env.findStorageError = false
    ∧ FindIdentityByIdAndProvider st ud.Subject pt = none
    ∧ env.newIdentityError = none ∧ env.createFails = false ∧ env.updateMetaFails = false
    ∧ env.updateProvidersFails = false ∧ env.auditError = none
    ∧ u' = { user with
               UserMetaData := mergeUserMetaData user.UserMetaData ud.Metadata,
               Providers := addProvider user.Providers pt }
    ∧ st' = { identities := st.identities ++ [NewIdentity st user pt ud.Metadata ud.Subject],
              users := st.users.map (fun v => if v.ID = user.ID then u' else v),
              auditEntries := st.auditEntries ++
                [{ ActorID := user.ID, Action := .userModified, ProviderTrait := pt,
                   IdentityIDTrait := none }],
              nextIdentityID := st.nextIdentityID + 1 } := by
  cases hf : env.findStorageError
  · cases hfind : FindIdentityByIdAndProvider st ud.Subject pt with
    | some i =>
      rw [linkTxMain] at h
      simp only [hf, hfind, Bool.false_eq_true, if_false] at h
      split at h <;> cases h
    | none =>
      cases hni : env.newIdentityError with
      | some e => simp [linkTxMain, hf, hfind, hni] at h
      | none =>
        cases hc : env.createFails
        · cases hm : env.updateMetaFails
          · cases hpv : env.updateProvidersFails
            · cases ha : env.auditError with
              | some e => simp [linkTxMain, hf, hfind, hni, hc, hm, hpv, ha] at h
              | none =>
                simp only [linkTxMain, hf, hfind, hni, hc, hm, hpv, ha,
                  Bool.false_eq_true, if_false, Except.ok.injEq, Prod.mk.injEq] at h
                obtain ⟨h1, h2⟩ := h
                subst h1
                subst h2
                refine ⟨rfl, rfl, rfl, rfl, rfl, rfl, rfl, rfl, ?_⟩
                simp only [DBState.updateUser]
                rw [updateUser_twice st.users user.ID
                  { ID := user.ID,
                    UserMetaData := mergeUserMetaData user.UserMetaData ud.Metadata,
                    Providers := user.Providers }
                  { ID := user.ID,
                    UserMetaData := mergeUserMetaData user.UserMetaData ud.Metadata,
                    Providers := addProvider user.Providers pt }
                  rfl]
            · simp [linkTxMain, hf, hfind, hni, hc, hm, hpv] at h
          · simp [linkTxMain, hf, hfind, hni, hc, hm] at h
        · simp [linkTxMain, hf, hfind, hni, hc] at h
  · simp [linkTxMain, hf] at h

/-- Success inversion for the alt transaction body: identical to the main
one except the audit entry's action and identity-id trait. -/
theorem linkTxAlt_ok (env : Env) (user : User) (pt : String) (ud : UserData) (st : DBState)
    (u' : User) (st' : DBState)
    (h : linkTxAlt env user pt ud st = .ok (u', st')) :
    env.findStorageError = false
    ∧ FindIdentityByIdAndProvider st ud.Subject pt = none
    ∧ env.newIdentityError = none ∧ env.createFails = false ∧ env.updateMetaFails = false
    ∧ env.updateProvidersFails = false ∧ env.auditError = none
    ∧ u' = { user with
               UserMetaData := mergeUserMetaData user.UserMetaData ud.Metadata,
               Providers := addProvider user.Providers pt }
    ∧ st' = { identities := st.identities ++ [NewIdentity st user pt ud.Metadata ud.Subject],
              users := st.users.map (fun v => if v.ID = user.ID then u' else v),
              auditEntries := st.auditEntries ++
                [{ ActorID := user.ID, Action := .identityLink, ProviderTrait := pt,
                   IdentityIDTrait := some st.nextIdentityID }],
              nextIdentityID := st.nextIdentityID + 1 } := by
  cases hf : env.findStorageError
  · cases hfind : FindIdentityByIdAndProvider st ud.Subject pt with
    | some i =>
      rw [linkTxAlt] at h
      simp only [hf, hfind, Bool.false_eq_true, if_false] at h
      split at h <;> cases h
    | none =>
      cases hni : env.newIdentityError with
      | some e => simp [linkTxAlt, hf, hfind, hni] at h
      | none =>
        cases hc : env.createFails
        · cases hm : env.updateMetaFails
          · cases hpv : env.updateProvidersFails
            · cases ha : env.auditError with
              | some e => simp [linkTxAlt, hf, hfind, hni, hc, hm, hpv, ha] at h
              | none =>
                simp only [linkTxAlt, hf, hfind, hni, hc, hm, hpv, ha,
                  Bool.false_eq_true, if_false, Except.ok.injEq, Prod.mk.injEq] at h
                obtain ⟨h1, h2⟩ := h
                subst h1
                subst h2
                refine ⟨rfl, rfl, rfl, rfl, rfl, rfl, rfl, rfl, ?_⟩
                simp only [DBState.updateUser, NewIdentity]
                rw [updateUser_twice st.users user.ID
                  { ID := user.ID,
                    UserMetaData := mergeUserMetaData user.UserMetaData ud.Metadata,
                    Providers := user.Providers }
                  { ID := user.ID,
                    UserMetaData := mergeUserMetaData user.UserMetaData ud.Metadata,
                    Providers := addProvider user.Providers pt }
                  rfl]
            · simp [linkTxAlt, hf, hfind, hni, hc, hm, hpv] at h
          · simp [linkTxAlt, hf, hfind, hni, hc, hm] at h
        · simp [linkTxAlt, hf, hfind, hni, hc] at h
  · simp [linkTxAlt, hf] at h

/-- Success inversion for the modelled transaction wrapper. -/
theorem Transaction_ok_inv (st : DBState) (body : DBState → Except ApiError (User × DBState))
    (u : User) (s st2 : DBState) (h : Transaction st body = (.ok (u, s), st2)) :
    body st = .ok (u, st2) ∧ s = st2 := by
  unfold Transaction at h
  split at h
  · cases h
  · rename_i uu ss heq
    simp only [Prod.mk.injEq, Except.ok.injEq] at h
    obtain ⟨⟨h1, h2⟩, h3⟩ := h
    constructor
    · rw [heq, h1, h3]
    · rw [← h2]
      exact h3

/-- The committed state and returned user of a fully successful alt
transaction body. -/
theorem linkTxAlt_ok_value (env : Env) (user : User) (pt : String) (ud : UserData) (st : DBState)
    (hf : env.findStorageError = false)
    (hfind : FindIdentityByIdAndProvider st ud.Subject pt = none)
    (hni : env.newIdentityError = none) (hc : env.createFails = false)
    (hm : env.updateMetaFails = false) (hpv : env.updateProvidersFails = false)
    (ha : env.auditError = none) :
    linkTxAlt env user pt ud st =
      .ok ({ user with
             UserMetaData := mergeUserMetaData user.UserMetaData ud.Metadata,
             Providers := addProvider user.Providers pt },
           { identities := st.identities ++ [NewIdentity st user pt ud.Metadata ud.Subject],
             users := st.users.map (fun v =>
               if v.ID = user.ID then
                 { user with
                   UserMetaData := mergeUserMetaData user.UserMetaData ud.Metadata,
                   Providers := addProvider user.Providers pt }
               else v),
             auditEntries := st.auditEntries ++
               [{ ActorID := user.ID, Action := .identityLink, ProviderTrait := pt,
                  IdentityIDTrait := some st.nextIdentityID }],
             nextIdentityID := st.nextIdentityID + 1 }) := by
  simp only [linkTxAlt, hf, hfind, hni, hc, hm, hpv, ha, Bool.false_eq_true, if_false,
    DBState.updateUser, NewIdentity]
  rw [updateUser_twice st.users user.ID
    { ID := user.ID,
      UserMetaData := mergeUserMetaData user.UserMetaData ud.Metadata,
      Providers := user.Providers }
    { ID := user.ID,
      UserMetaData := mergeUserMetaData user.UserMetaData ud.Metadata,
      Providers := addProvider user.Providers pt }
    rfl]

/-- A main transaction body error is also an alt transaction body error,
with the same error value. -/
theorem linkTx_error_to_alt (env : Env) (user : User) (pt : String) (ud : UserData)
    (st : DBState) (e : ApiError) (h : linkTxMain env user pt ud st = .error e) :
    linkTxAlt env user pt ud st = .error e := by
  cases hf : env.findStorageError
  · cases hfind : FindIdentityByIdAndProvider st ud.Subject pt with
    | some i =>
      by_cases hid : i.UserID = user.ID
      · simp only [linkTxMain, hf, hfind, hid, Bool.false_eq_true, if_false,
          Except.error.injEq, if_true, if_pos] at h
        rw [← h]
        simp [linkTxAlt, hf, hfind, hid]
      · simp only [linkTxMain, hf, hfind, hid, Bool.false_eq_true, if_false,
          Except.error.injEq] at h
        rw [← h]
        simp [linkTxAlt, hf, hfind, hid]
    | none =>
      cases hni : env.newIdentityError with
      | some e2 =>
        simp only [linkTxMain, hf, hfind, hni, Bool.false_eq_true, if_false,
          Except.error.injEq] at h
        rw [← h]
        simp [linkTxAlt, hf, hfind, hni]
      | none =>
        cases hc : env.createFails
        · cases hm : env.updateMetaFails
          · cases hpv : env.updateProvidersFails
            · cases ha : env.auditError with
              | some e2 =>
                simp only [linkTxMain, hf, hfind, hni, hc, hm, hpv, ha, Bool.false_eq_true,
                  if_false, Except.error.injEq] at h
                rw [← h]
                simp [linkTxAlt, hf, hfind, hni, hc, hm, hpv, ha]
              | none =>
                simp [linkTxMain, hf, hfind, hni, hc, hm, hpv, ha] at h
            · simp only [linkTxMain, hf, hfind, hni, hc, hm, hpv, Bool.false_eq_true,
                if_false, if_true, Except.error.injEq] at h
              rw [← h]
              simp [linkTxAlt, hf, hfind, hni, hc, hm, hpv]
          · simp only [linkTxMain, hf, hfind, hni, hc, hm, Bool.false_eq_true,
              if_false, if_true, Except.error.injEq] at h
            rw [← h]
            simp [linkTxAlt, hf, hfind, hni, hc, hm]
        · simp only [linkTxMain, hf, hfind, hni, hc, Bool.false_eq_true,
            if_false, if_true, Except.error.injEq] at h
          rw [← h]
          simp [linkTxAlt, hf, hfind, hni, hc]
  · simp only [linkTxMain, hf, if_true, Except.error.injEq] at h
    rw [← h]
    simp [linkTxMain, linkTxAlt, hf]

/-- The two transaction bodies either fail with the same error, or both
succeed with the same user and states that differ only in the content of
the appended audit entry. -/
theorem linkTx_rel (env : Env) (user : User) (pt : String) (ud : UserData) (st : DBState) :
    (∃ e, linkTxMain env user pt ud st = .error e ∧ linkTxAlt env user pt ud st = .error e)
    ∨ (∃ u1 s1 s2, linkTxMain env user pt ud st = .ok (u1, s1)
        ∧ linkTxAlt env user pt ud st = .ok (u1, s2)
        ∧ s1.eraseAudit = s2.eraseAudit
        ∧ s1.auditEntries.length = s2.auditEntries.length) := by
  cases hM : linkTxMain env user pt ud st with
  | error e => exact Or.inl ⟨e, rfl, linkTx_error_to_alt env user pt ud st e hM⟩
  | ok p =>
    rcases p with ⟨u1, s1⟩
    obtain ⟨hf, hfind, hni, hc, hm, hpv, ha, hu1, hs1⟩ :=
      linkTxMain_ok env user pt ud st u1 s1 hM
    have hA := linkTxAlt_ok_value env user pt ud st hf hfind hni hc hm hpv ha
    subst hu1
    subst hs1
    refine Or.inr ⟨_, _, _, rfl, hA, ?_, ?_⟩
    · simp [DBState.eraseAudit]
    · simp

/-- Success inversion for the main handler: pins down the response and the
committed state once the request context is fixed. -/
theorem main_success_inv (env : Env) (st : DBState) (user : User)
    (params : IdTokenGrantParams) (pinfo : ProviderInfo) (idToken : VerifiedIDToken)
    (userData : UserData) (n : Nat) (u' : User)
    (hu : env.ctxUser = some user) (hp : env.paramsResult = .ok params)
    (hv : validateLinkRequest params = none) (hpr : env.providerResult = .ok pinfo)
    (hparse : env.parseIDToken (mkParseOptions params) = .ok (idToken, userData))
    (hok : (LinkIdentityWithIDToken env st).result = .ok (n, u')) :
    n = 200
    ∧ u' = { user with
             UserMetaData := mergeUserMetaData user.UserMetaData userData.Metadata,
             Providers := addProvider user.Providers pinfo.providerType }
    ∧ (LinkIdentityWithIDToken env st).state =
        { identities := st.identities ++
            [NewIdentity st user pinfo.providerType userData.Metadata userData.Subject],
          users := st.users.map (fun v => if v.ID = user.ID then u' else v),
          auditEntries := st.auditEntries ++
            [{ ActorID := user.ID, Action := .userModified,
               ProviderTrait := pinfo.providerType, IdentityIDTrait := none }],
          nextIdentityID := st.nextIdentityID + 1 } := by
  rw [mainReach env st user params pinfo idToken userData hu hp hv hpr hparse] at hok ⊢
  by_cases hca : correctAudience pinfo.acceptableClientIDs idToken.Audience = false
  · rw [if_pos hca] at hok
    simp at hok
  rw [if_neg hca] at hok ⊢
  by_cases hnn : pinfo.skipNonceCheck = false ∧ params.Nonce ≠ "" ∧ params.Nonce ≠ idToken.Nonce
  · rw [if_pos hnn] at hok
    simp at hok
  rw [if_neg hnn] at hok ⊢
  rcases hT : Transaction st (linkTxMain env user pinfo.providerType userData) with ⟨res, st2⟩
  rw [hT] at hok
  rcases res with e | ⟨uu, ss⟩
  · simp [txOutcome] at hok
  · simp only [txOutcome, Except.ok.injEq, Prod.mk.injEq] at hok
    obtain ⟨hn200, huu⟩ := hok
    obtain ⟨hbody, -⟩ := Transaction_ok_inv st _ uu ss st2 hT
    obtain ⟨-, -, -, -, -, -, -, hu', hst2⟩ :=
      linkTxMain_ok env user pinfo.providerType userData st uu st2 hbody
    subst huu
    refine ⟨hn200.symm, hu', ?_⟩
    simp only [txOutcome]
    rw [hst2]

/-- Success inversion for the alt handler: pins down the response and the
committed state once the request context is fixed. -/
theorem alt_success_inv (env : Env) (st : DBState) (user : User)
    (params : IdTokenGrantParams) (pinfo : ProviderInfo) (idToken : VerifiedIDToken)
    (userData : UserData) (n : Nat) (u' : User)
    (hu : env.ctxUser = some user) (hp : env.paramsResult = .ok params)
    (hv : validateLinkRequest params = none) (hpr : env.providerResult = .ok pinfo)
    (hparse : env.parseIDToken (mkParseOptions params) = .ok (idToken, userData))
    (hok : (LinkIdentityWithIDTokenAlt env st).result = .ok (n, u')) :
    n = 200
    ∧ u' = { user with
             UserMetaData := mergeUserMetaData user.UserMetaData userData.Metadata,
             Providers := addProvider user.Providers pinfo.providerType }
    ∧ (LinkIdentityWithIDTokenAlt env st).state =
        { identities := st.identities ++
            [NewIdentity st user pinfo.providerType userData.Metadata userData.Subject],
          users := st.users.map (fun v => if v.ID = user.ID then u' else v),
          auditEntries := st.auditEntries ++
            [{ ActorID := user.ID, Action := .identityLink,
               ProviderTrait := pinfo.providerType,
               IdentityIDTrait := some st.nextIdentityID }],
          nextIdentityID := st.nextIdentityID + 1 } := by
  rw [altReach env st user params pinfo idToken userData hu hp hv hpr hparse] at hok ⊢
  by_cases hca : correctAudience pinfo.acceptableClientIDs idToken.Audience = false
  · rw [if_pos hca] at hok
    simp at hok
  rw [if_neg hca] at hok ⊢
  by_cases hnn : pinfo.skipNonceCheck = false ∧ params.Nonce ≠ "" ∧ params.Nonce ≠ idToken.Nonce
  · rw [if_pos hnn] at hok
    simp at hok
  rw [if_neg hnn] at hok ⊢
  rcases hT : Transaction st (linkTxAlt env user pinfo.providerType userData) with ⟨res, st2⟩
  rw [hT] at hok
  rcases res with e | ⟨uu, ss⟩
  · simp [txOutcome] at hok
  · simp only [txOutcome, Except.ok.injEq, Prod.mk.injEq] at hok
    obtain ⟨hn200, huu⟩ := hok
    obtain ⟨hbody, -⟩ := Transaction_ok_inv st _ uu ss st2 hT
    obtain ⟨-, -, -, -, -, -, -, hu', hst2⟩ :=
      linkTxAlt_ok env user pinfo.providerType userData st uu st2 hbody
    subst huu
    refine ⟨hn200.symm, hu', ?_⟩
    simp only [txOutcome]
    rw [hst2]

/-- C9: on every successful link through the main handler, the committed
state contains the new Identity row built from the verified token's claim
metadata and subject, the user's metadata map merged with that same
metadata, the provider-type appended to the user's provider list, and the
handler answers HTTP 200 with exactly that mutated user. -/
theorem success_commit_characterization (env : Env) (st : DBState) (user : User)
    (params : IdTokenGrantParams) (pinfo : ProviderInfo) (idToken : VerifiedIDToken)
    (userData : UserData) (n : Nat) (u' : User)
    (hu : env.ctxUser = some user) (hp : env.paramsResult = .ok params)
    (hv : validateLinkRequest params = none) (hpr : env.providerResult = .ok pinfo)
    (hparse : env.parseIDToken (mkParseOptions params) = .ok (idToken, userData))
    (hok : (LinkIdentityWithIDToken env st).result = .ok (n, u')) :
    n = 200
    ∧ u' = { user with
             UserMetaData := mergeUserMetaData user.UserMetaData userData.Metadata,
             Providers := addProvider user.Providers pinfo.providerType }
    ∧ (LinkIdentityWithIDToken env st).state =
        { identities := st.identities ++
            [NewIdentity st user pinfo.providerType userData.Metadata userData.Subject],
          users := st.users.map (fun v => if v.ID = user.ID then u' else v),
          auditEntries := st.auditEntries ++
            [{ ActorID := user.ID, Action := .userModified,
               ProviderTrait := pinfo.providerType, IdentityIDTrait := none }],
          nextIdentityID := st.nextIdentityID + 1 } :=
  main_success_inv env st user params pinfo idToken userData n u' hu hp hv hpr hparse hok

/-- Witness for C9 at a concrete input: the baseline run succeeds and
commits exactly the expected identity row, user mutation and audit entry. -/
theorem success_commit_witness :
    (200 : Nat) = 200
    ∧ ({ u7 with
         UserMetaData := mergeUserMetaData u7.UserMetaData udBase.Metadata,
         Providers := addProvider u7.Providers pinfoBase.providerType } : User)
        = { u7 with
            UserMetaData := mergeUserMetaData u7.UserMetaData udBase.Metadata,
            Providers := addProvider u7.Providers pinfoBase.providerType }
    ∧ (LinkIdentityWithIDToken envBase stBase).state =
        { identities := stBase.identities ++
            [NewIdentity stBase u7 pinfoBase.providerType udBase.Metadata udBase.Subject],
          users := stBase.users.map (fun v =>
            if v.ID = u7.ID then
              { u7 with
                UserMetaData := mergeUserMetaData u7.UserMetaData udBase.Metadata,
                Providers := addProvider u7.Providers pinfoBase.providerType }
            else v),
          auditEntries := stBase.auditEntries ++
            [{ ActorID := u7.ID, Action := .userModified,
               ProviderTrait := pinfoBase.providerType, IdentityIDTrait := none }],
          nextIdentityID := stBase.nextIdentityID + 1 } :=
  success_commit_characterization envBase stBase u7 paramsBase pinfoBase tokBase udBase 200
    { u7 with
      UserMetaData := mergeUserMetaData u7.UserMetaData udBase.Metadata,
      Providers := addProvider u7.Providers pinfoBase.providerType }
    rfl rfl (by decide) rfl rfl (by decide)

/-- C5 counterexample: a fully successful link through the main version
(`link-identity-token.go`) writes its single audit entry with the generic
user-modified action kind and without the affected identity's id, so the
audit record is not link-specific and does not record the identity id as
the claim states. -/
theorem audit_action_counterexample :
    (LinkIdentityWithIDToken envBase stBase).result =
      .ok (200, { ID := 7, UserMetaData := [("name", "new"), ("sub", "sub-1")],
                  Providers := ["email", "google"] })
    ∧ (LinkIdentityWithIDToken envBase stBase).state.auditEntries =
      [{ ActorID := 7, Action := .userModified, ProviderTrait := "google",
         IdentityIDTrait := none }]
    ∧ AuditAction.userModified ≠ AuditAction.identityLink := by
  decide

/-- C5 amended: every successful link writes exactly one audit-log entry,
inside the same atomic unit, recording the acting user and the
provider-type; the alt version additionally records the affected
identity's id with the link-specific action kind, while the main version
uses the generic user-modified action kind and records no identity id. -/
theorem audit_entry_characterization (env : Env) (st : DBState) (user : User)
    (params : IdTokenGrantParams) (pinfo : ProviderInfo) (idToken : VerifiedIDToken)
    (userData : UserData)
    (hu : env.ctxUser = some user) (hp : env.paramsResult = .ok params)
    (hv : validateLinkRequest params = none) (hpr : env.providerResult = .ok pinfo)
    (hparse : env.parseIDToken (mkParseOptions params) = .ok (idToken, userData)) :
    (∀ n u', (LinkIdentityWithIDToken env st).result = .ok (n, u') →
       (LinkIdentityWithIDToken env st).state.auditEntries =
         st.auditEntries ++ [{ ActorID := user.ID, Action := .userModified,
                               ProviderTrait := pinfo.providerType, IdentityIDTrait := none }])
    ∧ (∀ n u', (LinkIdentityWithIDTokenAlt env st).result = .ok (n, u') →
       (LinkIdentityWithIDTokenAlt env st).state.auditEntries =
         st.auditEntries ++ [{ ActorID := user.ID, Action := .identityLink,
                               ProviderTrait := pinfo.providerType,
                               IdentityIDTrait := some st.nextIdentityID }]) := by
  constructor
  · intro n u' hok
    obtain ⟨-, -, hstate⟩ :=
      main_success_inv env st user params pinfo idToken userData n u' hu hp hv hpr hparse hok
    rw [hstate]
  · intro n u' hok
    obtain ⟨-, -, hstate⟩ :=
      alt_success_inv env st user params pinfo idToken userData n u' hu hp hv hpr hparse hok
    rw [hstate]

/-- Witness for the amended C5 at a concrete input: the baseline successful
run through the main version appends exactly one audit entry recording the
acting user and provider-type. -/
theorem audit_entry_witness :
    (LinkIdentityWithIDToken envBase stBase).state.auditEntries =
      stBase.auditEntries ++
        [{ ActorID := u7.ID, Action := .userModified,
           ProviderTrait := pinfoBase.providerType, IdentityIDTrait := none }] :=
  (audit_entry_characterization envBase stBase u7 paramsBase pinfoBase tokBase udBase
      rfl rfl (by decide) rfl rfl).1 200
    { u7 with
      UserMetaData := mergeUserMetaData u7.UserMetaData udBase.Metadata,
      Providers := addProvider u7.Providers pinfoBase.providerType }
    (by decide)

/-- C6 counterexample: the two versions do not produce the same outcome on
every request. With no authenticated user and an empty id_token, the main
version (user check first) fails with user-not-found while the alt version
(validation first) fails with validation-failed; and with a required-nonce
mismatch the two versions use different oauth error codes. -/
theorem versions_divergence_counterexample :
    (LinkIdentityWithIDToken
        { envBase with ctxUser := none, paramsResult := .ok { paramsBase with IdToken := "" } }
        stBase).result
      = .error (.unprocessableEntity .UserNotFound "Missing authenticated user")
    ∧ (LinkIdentityWithIDTokenAlt
        { envBase with ctxUser := none, paramsResult := .ok { paramsBase with IdToken := "" } }
        stBase).result
      = .error (.badRequest .ValidationFailed "id_token is required")
    ∧ (LinkIdentityWithIDToken
        { envBase with ctxUser := none, paramsResult := .ok { paramsBase with IdToken := "" } }
        stBase).result
      ≠ (LinkIdentityWithIDTokenAlt
        { envBase with ctxUser := none, paramsResult := .ok { paramsBase with IdToken := "" } }
        stBase).result
    ∧ (LinkIdentityWithIDToken
        { envBase with
            paramsResult := .ok { paramsBase with Nonce := "abc" },
            parseIDToken := fun _ => .ok ({ Audience := ["clientA"], Nonce := "xyz" }, udBase) }
        stBase).result = .error (.oauth "invalid_nonce" "Invalid nonce")
    ∧ (LinkIdentityWithIDTokenAlt
        { envBase with
            paramsResult := .ok { paramsBase with Nonce := "abc" },
            parseIDToken := fun _ => .ok ({ Audience := ["clientA"], Nonce := "xyz" }, udBase) }
        stBase).result = .error (.oauth "invalid_request" "Invalid nonce") := by
  decide

/-- C6 amended: besides the audit-record content, the two versions also
differ in the order of the authentication and validation checks, in the
error kind for a missing user, and in the nonce-failure error code; for
every request with an authenticated user whose nonce gate passes, both
versions produce the same outcome, the same collaborator trace, and the
same state apart from the content of the audit record (same number of
audit entries). -/
theorem versions_equivalence (env : Env) (st : DBState) (user : User)
    (hu : env.ctxUser = some user)
    (hnonce : ∀ params pinfo idToken userData, env.paramsResult = .ok params →
       env.providerResult = .ok pinfo →
       env.parseIDToken (mkParseOptions params) = .ok (idToken, userData) →
       ¬(pinfo.skipNonceCheck = false ∧ params.Nonce ≠ "" ∧ params.Nonce ≠ idToken.Nonce)) :
    (LinkIdentityWithIDToken env st).result = (LinkIdentityWithIDTokenAlt env st).result
    ∧ (LinkIdentityWithIDToken env st).state.eraseAudit
        = (LinkIdentityWithIDTokenAlt env st).state.eraseAudit
    ∧ (LinkIdentityWithIDToken env st).state.auditEntries.length
        = (LinkIdentityWithIDTokenAlt env st).state.auditEntries.length
    ∧ (LinkIdentityWithIDToken env st).trace = (LinkIdentityWithIDTokenAlt env st).trace := by
  rcases hp : env.paramsResult with e | params
  · refine ⟨?_, ?_, ?_, ?_⟩ <;>
      simp [LinkIdentityWithIDToken, LinkIdentityWithIDTokenAlt, hu, hp]
  rcases hv : validateLinkRequest params with _ | e
  swap
  · refine ⟨?_, ?_, ?_, ?_⟩ <;>
      simp [LinkIdentityWithIDToken, LinkIdentityWithIDTokenAlt, hu, hp, hv]
  rcases hpr : env.providerResult with e | pinfo
  · refine ⟨?_, ?_, ?_, ?_⟩ <;>
      simp [LinkIdentityWithIDToken, LinkIdentityWithIDTokenAlt, hu, hp, hv, hpr]
  rcases hparse : env.parseIDToken (mkParseOptions params) with e | ⟨idToken, userData⟩
  · refine ⟨?_, ?_, ?_, ?_⟩ <;>
      simp [LinkIdentityWithIDToken, LinkIdentityWithIDTokenAlt, hu, hp, hv, hpr, hparse]
  rw [mainReach env st user params pinfo idToken userData hu hp hv hpr hparse,
    altReach env st user params pinfo idToken userData hu hp hv hpr hparse]
  by_cases hca : correctAudience pinfo.acceptableClientIDs idToken.Audience = false
  · rw [if_pos hca, if_pos hca]
    exact ⟨rfl, rfl, rfl, rfl⟩
  rw [if_neg hca, if_neg hca]
  have hn := hnonce params pinfo idToken userData hp hpr hparse
  rw [if_neg hn, if_neg hn]
  rcases linkTx_rel env user pinfo.providerType userData st with
    ⟨e, hM, hA⟩ | ⟨u1, s1, s2, hM, hA, hera, hlen⟩
  · have hTM : Transaction st (linkTxMain env user pinfo.providerType userData)
        = (.error e, st) := by
      simp [Transaction, hM]
    have hTA : Transaction st (linkTxAlt env user pinfo.providerType userData)
        = (.error e, st) := by
      simp [Transaction, hA]
    rw [hTM, hTA]
    exact ⟨rfl, rfl, rfl, rfl⟩
  · have hTM : Transaction st (linkTxMain env user pinfo.providerType userData)
        = (.ok (u1, s1), s1) := by
      simp [Transaction, hM]
    have hTA : Transaction st (linkTxAlt env user pinfo.providerType userData)
        = (.ok (u1, s2), s2) := by
      simp [Transaction, hA]
    rw [hTM, hTA]
    exact ⟨rfl, hera, hlen, rfl⟩

/-- Witness for the amended C6 at a concrete input: on the baseline request
the two versions agree on the outcome, the trace, and the state apart from
the audit entry's content. -/
theorem versions_equivalence_witness :
    (LinkIdentityWithIDToken envBase stBase).result
        = (LinkIdentityWithIDTokenAlt envBase stBase).result
    ∧ (LinkIdentityWithIDToken envBase stBase).state.eraseAudit
        = (LinkIdentityWithIDTokenAlt envBase stBase).state.eraseAudit
    ∧ (LinkIdentityWithIDToken envBase stBase).state.auditEntries.length
        = (LinkIdentityWithIDTokenAlt envBase stBase).state.auditEntries.length
    ∧ (LinkIdentityWithIDToken envBase stBase).trace
        = (LinkIdentityWithIDTokenAlt envBase stBase).trace :=
  versions_equivalence envBase stBase u7 rfl (by
    intro params pinfo idToken userData hp hpr hparse
    have hp' : paramsBase = params := by
      simpa [envBase] using hp
    subst hp'
    have hpr' : pinfoBase = pinfo := by
      simpa [envBase] using hpr
    subst hpr'
    have hparse' : tokBase = idToken ∧ udBase = userData := by
      simpa [envBase] using hparse
    obtain ⟨h1, h2⟩ := hparse'
    subst h1
    subst h2
    decide)

/-- C8 counterexample: with no authenticated user and an empty id_token the
alt version fails with the validation error, not with an unauthorized or
user-not-found error, so the unauthorized failure is not produced
regardless of the request body's content. -/
theorem missing_user_counterexample :
    ({ envBase with
         ctxUser := none,
         paramsResult := .ok { paramsBase with IdToken := "" } } : Env).ctxUser = none
    ∧ (LinkIdentityWithIDTokenAlt
        { envBase with
            ctxUser := none,
            paramsResult := .ok { paramsBase with IdToken := "" } } stBase).result
      = .error (.badRequest .ValidationFailed "id_token is required") := by
  decide

/-- C8 amended: with no authenticated user, neither version mutates the
state; the main version always fails with the user-not-found error
regardless of the body, while the alt version checks the body first and
fails with the unauthorized error exactly when the body passes decoding
and validation — when the body fails decoding it surfaces that decoding
error unchanged, and when validation fails it surfaces the validation
error, which is never the unauthorized error. -/
theorem missing_user_characterization (env : Env) (st : DBState) (hu : env.ctxUser = none) :
    (LinkIdentityWithIDToken env st =
       { result := .error (.unprocessableEntity .UserNotFound "Missing authenticated user"),
         state := st, trace := { providerResolved := false, parseCalled := none } })
    ∧ ((LinkIdentityWithIDTokenAlt env st).state = st)
    ∧ (∀ e, env.paramsResult = .error e →
        LinkIdentityWithIDTokenAlt env st =
          { result := .error e, state := st,
            trace := { providerResolved := false, parseCalled := none } })
    ∧ (∀ params e, env.paramsResult = .ok params → validateLinkRequest params = some e →
        (LinkIdentityWithIDTokenAlt env st =
          { result := .error e, state := st,
            trace := { providerResolved := false, parseCalled := none } })
        ∧ ∀ msg, e ≠ .unauthorized msg)
    ∧ (∀ params, env.paramsResult = .ok params → validateLinkRequest params = none →
        LinkIdentityWithIDTokenAlt env st =
          { result := .error (.unauthorized "Missing authenticated user"),
            state := st, trace := { providerResolved := false, parseCalled := none } }) := by
  refine ⟨by simp [LinkIdentityWithIDToken, hu], ?_, ?_, ?_, ?_⟩
  · rcases hp : env.paramsResult with e | params
    · simp [LinkIdentityWithIDTokenAlt, hp]
    rcases hv : validateLinkRequest params with _ | e
    swap
    · simp [LinkIdentityWithIDTokenAlt, hp, hv]
    · simp [LinkIdentityWithIDTokenAlt, hp, hv, hu]
  · intro e hp
    simp [LinkIdentityWithIDTokenAlt, hp]
  · intro params e hp hv
    refine ⟨by simp [LinkIdentityWithIDTokenAlt, hp, hv], ?_⟩
    unfold validateLinkRequest at hv
    split at hv
    · injection hv with hv'
      subst hv'
      intro msg hc
      exact ApiError.noConfusion hc
    · split at hv
      · injection hv with hv'
        subst hv'
        intro msg hc
        exact ApiError.noConfusion hc
      · exact Option.noConfusion hv
  · intro params hp hv
    simp [LinkIdentityWithIDTokenAlt, hp, hv, hu]

/-- Witness for the amended C8 at concrete inputs: with no user in the
context the main version rejects the baseline request with user-not-found
and no mutation, and the alt version given an empty id_token surfaces
exactly the validation error, which is not the unauthorized error. -/
theorem missing_user_witness :
    (LinkIdentityWithIDToken { envBase with ctxUser := none } stBase =
      { result := .error (.unprocessableEntity .UserNotFound "Missing authenticated user"),
        state := stBase, trace := { providerResolved := false, parseCalled := none } })
    ∧ (LinkIdentityWithIDTokenAlt
        { envBase with
            ctxUser := none,
            paramsResult := .ok { paramsBase with IdToken := "" } } stBase =
      { result := .error (.badRequest .ValidationFailed "id_token is required"),
        state := stBase, trace := { providerResolved := false, parseCalled := none } })
    ∧ (∀ msg, (.badRequest .ValidationFailed "id_token is required" : ApiError)
        ≠ .unauthorized msg) :=
  ⟨(missing_user_characterization { envBase with ctxUser := none } stBase rfl).1,
   ((missing_user_characterization
      { envBase with
          ctxUser := none,
          paramsResult := .ok { paramsBase with IdToken := "" } } stBase rfl).2.2.2.1
      { paramsBase with IdToken := "" }
      (.badRequest .ValidationFailed "id_token is required") rfl rfl).1,
   ((missing_user_characterization
      { envBase with
          ctxUser := none,
          paramsResult := .ok { paramsBase with IdToken := "" } } stBase rfl).2.2.2.1
      { paramsBase with IdToken := "" }
      (.badRequest .ValidationFailed "id_token is required") rfl rfl).2⟩

end Auth
